import Mathlib

/-!
Verification development for the labsscratch BLE bridge of the
arduino-create-agent repository.

The Go sources are shallowly embedded: message codec helpers from
labsscratch/jsonrpc.go, parameter types and their JSON decoders from
labsscratch/types.go, the scan filter and the notification callback from
the ble helper file, and the per-session websocket dispatcher GetHandler.
External collaborators (encoding/json, google/uuid, the tinygo bluetooth
adapter, the websocket connection) are modelled by explicit data: JSON
frames are a small JSON value type, the BLE adapter is a record of
call-result functions, and each handler returns the chronological list of
events (adapter calls and outbound frames) it produced together with the
updated session state and an outcome (continue the loop, or a Go panic).
-/

namespace Agent

/-! ## UUIDs (google/uuid.UUID, 16 bytes; bluetooth.NewUUID is a plain conversion) -/

/-- Model of google/uuid.UUID: 16 bytes. -/
structure UUID where
  bytes : List Nat
deriving DecidableEq, Repr

/-- Zero value of uuid.UUID (all 16 bytes zero). -/
def zeroUUID : UUID := ⟨List.replicate 16 0⟩

/-- Model of bluetooth.NewUUID: converts a google/uuid value to the adapter
UUID type; the byte content is unchanged, so it is the identity here. -/
def newUUID (u : UUID) : UUID := u

/-- Value of one hexadecimal digit, as accepted by the uuid parser. -/
def hexVal (c : Char) : Option Nat :=
  if '0' ≤ c ∧ c ≤ '9' then some (c.toNat - '0'.toNat)
  else if 'a' ≤ c ∧ c ≤ 'f' then some (c.toNat - 'a'.toNat + 10)
  else if 'A' ≤ c ∧ c ≤ 'F' then some (c.toNat - 'A'.toNat + 10)
  else none

/-- Pairs of hex digits to bytes. -/
def hexPairs : List Char → Option (List Nat)
  | [] => some []
  | c0 :: c1 :: rest =>
    match hexVal c0, hexVal c1 with
    | some h, some l =>
      match hexPairs rest with
      | some bs => some ((h * 16 + l) :: bs)
      | none => none
    | _, _ => none
  | _ => none

/-- Model of the canonical branch of google/uuid.Parse as invoked by the
JSON decoding of uuid.UUID fields: the 36-character form
xxxxxxxx-xxxx-xxxx-xxxx-xxxxxxxxxxxx. -/
def parseUUID (s : String) : Option UUID :=
  let cs := s.toList
  if cs.length = 36 then
    if cs.getD 8 ' ' = '-' ∧ cs.getD 13 ' ' = '-' ∧ cs.getD 18 ' ' = '-' ∧
       cs.getD 23 ' ' = '-' then
      match hexPairs ((((cs.eraseIdx 23).eraseIdx 18).eraseIdx 13).eraseIdx 8) with
      | some bs => some ⟨bs⟩
      | none => none
    else none
  else none

/-! ## Base64 (encoding/base64 StdEncoding as used by the sources) -/

/-- The standard base64 alphabet. -/
def b64Alphabet : List Char :=
  "ABCDEFGHIJKLMNOPQRSTUVWXYZabcdefghijklmnopqrstuvwxyz0123456789+/".toList

/-- Character for a 6-bit group. -/
def b64Char (n : Nat) : Char := b64Alphabet.getD n 'A'

/-- Index of a character in the base64 alphabet. -/
def b64IndexAux (c : Char) : List Char → Nat → Option Nat
  | [], _ => none
  | a :: rest, i => if a = c then some i else b64IndexAux c rest (i + 1)

/-- Decoded 6-bit value of a base64 character. -/
def b64Value (c : Char) : Option Nat := b64IndexAux c b64Alphabet 0

/-- Standard base64 encoding of a byte list, in 3-byte groups with
padding, as base64.StdEncoding.EncodeToString does. -/
def base64EncodeAux : List Nat → List Char
  | [] => []
  | [x0] => [b64Char (x0 / 4), b64Char (x0 % 4 * 16), '=', '=']
  | [x0, x1] => [b64Char (x0 / 4), b64Char (x0 % 4 * 16 + x1 / 16),
                 b64Char (x1 % 16 * 4), '=']
  | x0 :: x1 :: x2 :: rest =>
    b64Char (x0 / 4) :: b64Char (x0 % 4 * 16 + x1 / 16) ::
    b64Char (x1 % 16 * 4 + x2 / 64) :: b64Char (x2 % 64) :: base64EncodeAux rest

/-- Model of base64.StdEncoding.EncodeToString. -/
def base64Encode (bs : List Nat) : String := String.mk (base64EncodeAux bs)

/-- Decoding of base64 text in 4-character groups with terminal padding,
as base64.StdEncoding.DecodeString does (an error anywhere rejects the
whole input). -/
def base64DecodeAux : List Char → Except String (List Nat)
  | [] => .ok []
  | c0 :: c1 :: c2 :: c3 :: rest =>
    match b64Value c0, b64Value c1 with
    | some v0, some v1 =>
      if c2 = '=' then
        if c3 = '=' ∧ rest = [] then .ok [v0 * 4 + v1 / 16]
        else .error "illegal base64 data at input"
      else
        match b64Value c2 with
        | some v2 =>
          if c3 = '=' then
            if rest = [] then .ok [v0 * 4 + v1 / 16, v1 % 16 * 16 + v2 / 4]
            else .error "illegal base64 data at input"
          else
            match b64Value c3 with
            | some v3 =>
              match base64DecodeAux rest with
              | .ok tail =>
                .ok ((v0 * 4 + v1 / 16) :: (v1 % 16 * 16 + v2 / 4) ::
                     (v2 % 4 * 64 + v3) :: tail)
              | .error e => .error e
            | none => .error "illegal base64 data at input"
        | none => .error "illegal base64 data at input"
    | _, _ => .error "illegal base64 data at input"
  | _ => .error "illegal base64 data at input"

/-- Model of base64.StdEncoding.DecodeString (newline characters are
skipped by the Go decoder before group processing). -/
def base64Decode (s : String) : Except String (List Nat) :=
  base64DecodeAux (s.toList.filter fun c => ¬ (c = '\r' ∨ c = '\n'))

/-! ## JSON values (the shape of frames seen by encoding/json) -/

/-- JSON value, standing for the raw bytes that encoding/json decodes. -/
inductive Json where
  | null
  | bool (b : Bool)
  | num (n : Int)
  | str (s : String)
  | arr (xs : List Json)
  | obj (fields : List (String × Json))

/-- First binding of a key in a JSON object. -/
def lookupField : List (String × Json) → String → Option Json
  | [], _ => none
  | (k, v) :: rest, name => if k = name then some v else lookupField rest name

/-- Decoding of a string struct field: absent and null keep the zero
value, a JSON string is taken verbatim, anything else is a type error,
mirroring encoding/json. -/
def decStringField (fs : List (String × Json)) (name : String) : Except String String :=
  match lookupField fs name with
  | none => .ok ""
  | some .null => .ok ""
  | some (.str s) => .ok s
  | some _ => .error ("json: cannot unmarshal into string field " ++ name)

/-- Decoding of a bool struct field, mirroring encoding/json. -/
def decBoolField (fs : List (String × Json)) (name : String) : Except String Bool :=
  match lookupField fs name with
  | none => .ok false
  | some .null => .ok false
  | some (.bool b) => .ok b
  | some _ => .error ("json: cannot unmarshal into bool field " ++ name)

/-- Decoding of a uuid.UUID struct field: a JSON string parsed by the
uuid parser; absent and null keep the zero value. -/
def decUUIDField (fs : List (String × Json)) (name : String) : Except String UUID :=
  match lookupField fs name with
  | none => .ok zeroUUID
  | some .null => .ok zeroUUID
  | some (.str s) =>
    match parseUUID s with
    | some u => .ok u
    | none => .error ("invalid UUID in field " ++ name)
  | some _ => .error ("json: cannot unmarshal into UUID field " ++ name)

/-- Decoding of the elements of a JSON array of UUID strings. -/
def decUUIDElems : List Json → Except String (List UUID)
  | [] => .ok []
  | .str s :: rest =>
    match parseUUID s with
    | some u =>
      match decUUIDElems rest with
      | .ok us => .ok (u :: us)
      | .error e => .error e
    | none => .error "invalid UUID in array"
  | _ :: _ => .error "json: cannot unmarshal array element into UUID"

/-- Decoding of a slice-of-UUID struct field; absent and null give the
nil slice. -/
def decUUIDListField (fs : List (String × Json)) (name : String) : Except String (List UUID) :=
  match lookupField fs name with
  | none => .ok []
  | some .null => .ok []
  | some (.arr xs) => decUUIDElems xs
  | some _ => .error ("json: cannot unmarshal into UUID slice field " ++ name)

/-! ## Parameter types (labsscratch/types.go) and their JSON decoders -/

/-- Discovery-result snapshot sent to the client (type Device). -/
structure Device where
  peripheralId : String
  name : String
  rssi : Int
deriving DecidableEq, Repr

/-- One discovery filter entry (type DiscoverFilter). The Go field
NamePrefix is decoded but never evaluated by the matching logic; it is
named namePfx here. -/
structure DiscoverFilter where
  name : String
  namePfx : String
  services : List UUID
deriving DecidableEq, Repr

/-- Parameters of the discover request (type DiscoverParams). -/
structure DiscoverParams where
  filters : List DiscoverFilter
deriving DecidableEq, Repr

/-- Parameters of the connect request (type ConnectParams). -/
structure ConnectParams where
  peripheralId : String
deriving DecidableEq, Repr

/-- Parameters of startNotifications and stopNotifications
(type NotificationsParams). -/
structure NotificationsParams where
  serviceId : UUID
  characteristicId : UUID
deriving DecidableEq, Repr

/-- Parameters of the write request, also the payload of the
characteristicDidChange push (type UpdateParams). -/
structure UpdateParams where
  serviceId : UUID
  characteristicId : UUID
  message : String
  encoding : String
  withResponse : Bool
deriving DecidableEq, Repr

/-- Parameters of the read request (type ReadParams). -/
structure ReadParams where
  serviceId : UUID
  characteristicId : UUID
  startNotifications : Bool
deriving DecidableEq, Repr

/-- Decoding of one DiscoverFilter from a JSON array element, as
encoding/json does inside DiscoverParamsFromJson. -/
def decDiscoverFilter : Json → Except String DiscoverFilter
  | .null => .ok ⟨"", "", []⟩
  | .obj fs =>
    match decStringField fs "name" with
    | .error e => .error e
    | .ok name =>
      match decStringField fs "namePrefix" with
      | .error e => .error e
      | .ok np =>
        match decUUIDListField fs "services" with
        | .error e => .error e
        | .ok services => .ok ⟨name, np, services⟩
  | _ => .error "json: cannot unmarshal into DiscoverFilter"

/-- Decoding of the elements of the filters array. -/
def decDiscoverFilters : List Json → Except String (List DiscoverFilter)
  | [] => .ok []
  | x :: rest =>
    match decDiscoverFilter x with
    | .error e => .error e
    | .ok f =>
      match decDiscoverFilters rest with
      | .error e => .error e
      | .ok l => .ok (f :: l)

/-- Model of DiscoverParamsFromJson: json.Unmarshal of the raw params
into DiscoverParams. A nil raw message (absent params) is an unmarshal
error; null leaves the zero value. -/
def DiscoverParamsFromJson : Option Json → Except String DiscoverParams
  | none => .error "unexpected end of JSON input"
  | some .null => .ok ⟨[]⟩
  | some (.obj fs) =>
    match lookupField fs "filters" with
    | none => .ok ⟨[]⟩
    | some .null => .ok ⟨[]⟩
    | some (.arr xs) =>
      match decDiscoverFilters xs with
      | .error e => .error e
      | .ok l => .ok ⟨l⟩
    | some _ => .error "json: cannot unmarshal into filters field"
  | some _ => .error "json: cannot unmarshal into DiscoverParams"

/-- Model of ConnectParamsFromJson. -/
def ConnectParamsFromJson : Option Json → Except String ConnectParams
  | none => .error "unexpected end of JSON input"
  | some .null => .ok ⟨""⟩
  | some (.obj fs) =>
    match decStringField fs "peripheralId" with
    | .error e => .error e
    | .ok pid => .ok ⟨pid⟩
  | some _ => .error "json: cannot unmarshal into ConnectParams"

/-- Model of NotificationsParamsFromJson. -/
def NotificationsParamsFromJson : Option Json → Except String NotificationsParams
  | none => .error "unexpected end of JSON input"
  | some .null => .ok ⟨zeroUUID, zeroUUID⟩
  | some (.obj fs) =>
    match decUUIDField fs "serviceId" with
    | .error e => .error e
    | .ok sid =>
      match decUUIDField fs "characteristicId" with
      | .error e => .error e
      | .ok cid => .ok ⟨sid, cid⟩
  | some _ => .error "json: cannot unmarshal into NotificationsParams"

/-- Model of UpdateParamsFromJson. -/
def UpdateParamsFromJson : Option Json → Except String UpdateParams
  | none => .error "unexpected end of JSON input"
  | some .null => .ok ⟨zeroUUID, zeroUUID, "", "", false⟩
  | some (.obj fs) =>
    match decUUIDField fs "serviceId" with
    | .error e => .error e
    | .ok sid =>
      match decUUIDField fs "characteristicId" with
      | .error e => .error e
      | .ok cid =>
        match decStringField fs "message" with
        | .error e => .error e
        | .ok message =>
          match decStringField fs "encoding" with
          | .error e => .error e
          | .ok enc =>
            match decBoolField fs "withResponse" with
            | .error e => .error e
            | .ok wr => .ok ⟨sid, cid, message, enc, wr⟩
  | some _ => .error "json: cannot unmarshal into UpdateParams"

/-- Model of ReadParamsFromJson. -/
def ReadParamsFromJson : Option Json → Except String ReadParams
  | none => .error "unexpected end of JSON input"
  | some .null => .ok ⟨zeroUUID, zeroUUID, false⟩
  | some (.obj fs) =>
    match decUUIDField fs "serviceId" with
    | .error e => .error e
    | .ok sid =>
      match decUUIDField fs "characteristicId" with
      | .error e => .error e
      | .ok cid =>
        match decBoolField fs "startNotifications" with
        | .error e => .error e
        | .ok sn => .ok ⟨sid, cid, sn⟩
  | some _ => .error "json: cannot unmarshal into ReadParams"

/-! ## Message codec (labsscratch/jsonrpc.go) -/

/-- Inbound protocol message (type Msg). Params keeps the raw JSON:
none models a nil json.RawMessage (params key absent in the frame). -/
structure Msg where
  id : Int
  jsonrpc : String
  method : String
  params : Option Json

/-- Success reply (type Result). The result value is the JSON value that
json.Marshal would produce from the Go interface value; an empty encoding
string models the omitted omitempty field. -/
structure Result where
  id : Int
  jsonrpc : String
  result : Json
  encoding : String

/-- Error reply (type Error). -/
structure Error where
  id : Int
  jsonrpc : String
  error : String

/-- Model of the method Msg.Respond: a Result carrying the request id. -/
def Msg.Respond (m : Msg) (data : Json) : Result :=
  { id := m.id, jsonrpc := "2.0", result := data, encoding := "" }

/-- Model of the method Msg.RespondBytes: a Result carrying the request
id, base64 encoding of the buffer, and encoding "base64". -/
def Msg.RespondBytes (m : Msg) (buf : List Nat) : Result :=
  { id := m.id, jsonrpc := "2.0", result := .str (base64Encode buf),
    encoding := "base64" }

/-- Model of the method Msg.Error: an Error reply carrying the request id. -/
def Msg.Error (m : Msg) (err : String) : Error :=
  { id := m.id, jsonrpc := "2.0", error := err }

/-- Model of the method Msg.DebugParams: json.Unmarshal of the raw params
into a map; the Go method panics on an unmarshal error, so the error case
is surfaced for the dispatcher to turn into a crash outcome. -/
def DebugParams : Option Json → Except String (List (String × Json))
  | none => .error "unexpected end of JSON input"
  | some .null => .ok []
  | some (.obj fs) => .ok fs
  | some _ => .error "json: cannot unmarshal into map"

/-- Outbound push message built by NewMsg: the id comes from the global
atomic counter MsgID, modelled here as an explicit pushId argument; the
params value is the UpdateParams payload before marshalling. -/
structure PushMsg where
  id : Int
  jsonrpc : String
  method : String
  params : UpdateParams
deriving DecidableEq, Repr

/-- Model of NewMsg for characteristicDidChange pushes. -/
def NewMsgPush (pushId : Int) (method : String) (params : UpdateParams) : PushMsg :=
  { id := pushId, jsonrpc := "2.0", method := method, params := params }

/-- Model of notificationCallback: the push sent for one value-change
callback invocation with payload buf, given the two UUID arguments that
GetHandler supplies at subscription time. -/
def notificationCallback (serviceId characteristicId : UUID) (pushId : Int)
    (buf : List Nat) : PushMsg :=
  NewMsgPush pushId "characteristicDidChange"
    ⟨serviceId, characteristicId, base64Encode buf, "base64", false⟩

/-! ## Transport loop (wsRead and WsReadLoop in labsscratch/jsonrpc.go) -/

/-- One inbound websocket frame as wsRead sees it: the byte count n
returned by c.Read into the 512-byte buffer, and the result of
json.Unmarshal on those bytes (none models an unmarshal error). The
frame stream ending models c.Read returning io.EOF. -/
structure RawFrame where
  len : Nat
  parsed : Option Msg

/-- Result of one wsRead call. -/
inductive ReadResult where
  | delivered (m : Msg) (rest : List RawFrame)
  | readFault (e : String)
  | endOfStream
  | panicked (reason : String)

/-- Model of wsRead: reads frames until one decodes to a message with a
non-empty method; an oversize frame (n greater or equal 512) executes
panic("too big"); an unmarshal failure returns an error; frames whose
method is empty (reply-shaped frames) are skipped with continue. -/
def wsRead : List RawFrame → ReadResult
  | [] => .endOfStream
  | f :: rest =>
    if f.len ≥ 512 then .panicked "too big"
    else
      match f.parsed with
      | none => .readFault "ws read error"
      | some m => if m.method.length = 0 then wsRead rest else .delivered m rest

/-- How the session's read side ended. -/
inductive LoopEnd where
  | eof
  | fault
  | panicEnd
deriving DecidableEq, Repr

/-- Model of WsReadLoop: the sequence of messages delivered to the
dispatcher, and how the loop ended (clean end-of-stream, a logged read
fault, or the wsRead panic). -/
def wsReadLoop : List RawFrame → List Msg × LoopEnd
  | [] => ([], .eof)
  | f :: rest =>
    if f.len ≥ 512 then ([], .panicEnd)
    else
      match f.parsed with
      | none => ([], .fault)
      | some m =>
        if m.method.length = 0 then wsReadLoop rest
        else
          let (ms, e) := wsReadLoop rest
          (m :: ms, e)

/-! ## Discovery engine (matchDevice and startAsyncScan) -/

/-- One advertisement as the adapter scan callback receives it
(bluetooth.ScanResult): platform address, RSSI, and the advertisement
payload accessed through LocalName() and HasServiceUUID(). -/
structure ScanResult where
  address : String
  rssi : Int
  localName : String
  serviceUUIDs : List UUID
deriving DecidableEq, Repr

/-- Inner loop of matchDevice over filter.Services: false as soon as one
advertised-service lookup fails. -/
def hasAllServices (device : ScanResult) : List UUID → Bool
  | [] => true
  | u :: rest =>
    if device.serviceUUIDs.contains (newUUID u) then hasAllServices device rest
    else false

/-- Model of matchDevice: each filter entry can reject the advertisement
by name or by a missing service; the empty list accepts. -/
def matchDevice (device : ScanResult) : List DiscoverFilter → Bool
  | [] => true
  | filter :: rest =>
    if filter.name.length ≠ 0 ∧ filter.name ≠ device.localName then false
    else if hasAllServices device filter.services then matchDevice device rest
    else false

/-- Model of the scan callback body in startAsyncScan: an advertisement
with an empty local name is dropped before anything else, one failing
matchDevice drops it, and otherwise a Device snapshot is emitted on the
devices channel (and later pushed as didDiscoverPeripheral). -/
def scanEmit (filters : List DiscoverFilter) (device : ScanResult) : Option Device :=
  if device.localName.length = 0 then none
  else if matchDevice device filters then
    some { peripheralId := device.address, name := device.localName,
           rssi := device.rssi }
  else none

/-- Devices emitted by one scan over a list of observed advertisements. -/
def scanResults (filters : List DiscoverFilter) (advs : List ScanResult) : List Device :=
  advs.filterMap (scanEmit filters)

/-! ## Dispatcher (GetHandler, final revision in the unnamed part files) -/

/-- Opaque live handle returned by adapter.Connect. -/
structure DeviceHandle where
  ref : Nat
deriving DecidableEq, Repr

/-- Opaque handle from DiscoverServices. -/
structure ServiceHandle where
  ref : Nat
deriving DecidableEq, Repr

/-- Opaque handle from DiscoverCharacteristics. -/
structure CharHandle where
  ref : Nat
deriving DecidableEq, Repr

/-- The BLE capability provider: outcome of each adapter or device call
the dispatcher makes. DiscoverServices and DiscoverCharacteristics return
the slices the tinygo adapter would; enableNotif covers both enabling a
callback and disabling with nil. -/
structure BleEnv where
  connect : String → Except String DeviceHandle
  discoverServices : DeviceHandle → UUID → Except String (List ServiceHandle)
  discoverCharacteristics : ServiceHandle → UUID → Except String (List CharHandle)
  enableNotif : CharHandle → Except String Unit
  writeWithoutResponse : CharHandle → List Nat → Except String Nat
  readChar : CharHandle → Except String (List Nat)

/-- Device or adapter calls the dispatcher performs, in order. The
enableNotifications action records the two UUID arguments GetHandler
passes to notificationCallback for the registered subscription. -/
inductive BleAction where
  | stopScan
  | scanStart (filters : List DiscoverFilter)
  | connect (addr : String)
  | discoverServices (serviceId : UUID)
  | discoverCharacteristics (characteristicId : UUID)
  | enableNotifications (serviceId characteristicId : UUID)
  | disableNotifications
  | write (buf : List Nat)
  | read
deriving DecidableEq, Repr

/-- Outbound frame written to the websocket by the dispatcher. -/
inductive Frame where
  | res (r : Result)
  | err (e : Error)

/-- One observable step of the handler: an adapter call or an outbound
frame, in chronological order. -/
inductive Event where
  | act (a : BleAction)
  | sent (f : Frame)

/-- How handling one message ends: proceed to the next loop iteration,
or a Go runtime panic with its message. -/
inductive Outcome where
  | continueLoop
  | crash (reason : String)

/-- Go panic message for dereferencing the nil DEVICE pointer. -/
def nilDereference : String :=
  "runtime error: invalid memory address or nil pointer dereference"

/-- Go panic message for indexing an empty slice (services[0], chars[0]). -/
def indexRange : String := "runtime error: index out of range"

/-- Result of handling one inbound message. -/
structure HandlerResult where
  events : List Event
  device : Option DeviceHandle
  outcome : Outcome

/-- Outbound frames among the events, in order. -/
def HandlerResult.frames (r : HandlerResult) : List Frame :=
  r.events.filterMap fun e => match e with | .sent f => some f | .act _ => none

/-- Adapter and device calls among the events, in order. -/
def HandlerResult.actions (r : HandlerResult) : List BleAction :=
  r.events.filterMap fun e => match e with | .act a => some a | .sent _ => none

/-- Model of getDeviceCharacteristic: DiscoverServices for one id, index
0 of the slice, DiscoverCharacteristics for one id, index 0; indexing an
empty slice is a panic. Returns the outcome plus the calls made. -/
inductive CharLookup where
  | ok (c : CharHandle)
  | fault (e : String)
  | panicked (reason : String)

/-- Call sequence of getDeviceCharacteristic against the capability
provider. -/
def getDeviceCharacteristic (env : BleEnv) (dev : DeviceHandle)
    (serviceId characteristicId : UUID) : CharLookup × List Event :=
  match env.discoverServices dev serviceId with
  | .error e => (.fault e, [.act (.discoverServices serviceId)])
  | .ok [] => (.panicked indexRange, [.act (.discoverServices serviceId)])
  | .ok (svc :: _) =>
    match env.discoverCharacteristics svc characteristicId with
    | .error e =>
      (.fault e, [.act (.discoverServices serviceId),
                  .act (.discoverCharacteristics characteristicId)])
    | .ok [] =>
      (.panicked indexRange, [.act (.discoverServices serviceId),
                              .act (.discoverCharacteristics characteristicId)])
    | .ok (ch :: _) =>
      (.ok ch, [.act (.discoverServices serviceId),
                .act (.discoverCharacteristics characteristicId)])

/-- Static reply of getVersion. -/
def protocolVersion : Json := .obj [("protocol", .str "1.3")]

/-- The getVersion case of the dispatcher switch. -/
def handleGetVersion (device : Option DeviceHandle) (m : Msg) : HandlerResult :=
  { events := [.sent (.res (m.Respond protocolVersion))], device := device,
    outcome := .continueLoop }

/-- The discover case: decode, then startAsyncScan (StopScan followed by
the new scan), then the immediate empty acknowledgment. -/
def handleDiscover (device : Option DeviceHandle) (m : Msg) : HandlerResult :=
  match DiscoverParamsFromJson m.params with
  | .error e =>
    { events := [.sent (.err (m.Error e))], device := device,
      outcome := .continueLoop }
  | .ok p =>
    { events := [.act .stopScan, .act (.scanStart p.filters),
                 .sent (.res (m.Respond .null))],
      device := device, outcome := .continueLoop }

/-- The connect case: decode, StopScan, adapter.Connect; the DEVICE
variable receives whatever Connect returns (nil on failure). -/
def handleConnect (env : BleEnv) (device : Option DeviceHandle) (m : Msg) :
    HandlerResult :=
  match ConnectParamsFromJson m.params with
  | .error e =>
    { events := [.sent (.err (m.Error e))], device := device,
      outcome := .continueLoop }
  | .ok p =>
    match env.connect p.peripheralId with
    | .error e =>
      { events := [.act .stopScan, .act (.connect p.peripheralId),
                   .sent (.err (m.Error e))],
        device := none, outcome := .continueLoop }
    | .ok h =>
      { events := [.act .stopScan, .act (.connect p.peripheralId),
                   .sent (.res (m.Respond .null))],
        device := some h, outcome := .continueLoop }

/-- The startNotifications case: decode, dereference DEVICE (a Go panic
when no connect has succeeded), resolve the characteristic, then
EnableNotifications with notificationCallback(c,
params.CharacteristicId, params.CharacteristicId) as in the source. -/
def handleStartNotifications (env : BleEnv) (device : Option DeviceHandle)
    (m : Msg) : HandlerResult :=
  match NotificationsParamsFromJson m.params with
  | .error e =>
    { events := [.sent (.err (m.Error e))], device := device,
      outcome := .continueLoop }
  | .ok p =>
    match device with
    | none => { events := [], device := none, outcome := .crash nilDereference }
    | some dev =>
      match getDeviceCharacteristic env dev (newUUID p.serviceId)
          (newUUID p.characteristicId) with
      | (.fault e, evts) =>
        { events := evts ++ [.sent (.err (m.Error e))], device := device,
          outcome := .continueLoop }
      | (.panicked r, evts) =>
        { events := evts, device := device, outcome := .crash r }
      | (.ok ch, evts) =>
        match env.enableNotif ch with
        | .error e =>
          { events := evts ++
              [.act (.enableNotifications p.characteristicId p.characteristicId),
               .sent (.err (m.Error e))],
            device := device, outcome := .continueLoop }
        | .ok _ =>
          { events := evts ++
              [.act (.enableNotifications p.characteristicId p.characteristicId),
               .sent (.res (m.Respond .null))],
            device := device, outcome := .continueLoop }

/-- The write case: decode; a non-base64 encoding is only logged and the
request dropped; otherwise DEVICE is dereferenced, the service and
characteristic resolved inline, the payload base64-decoded, and
WriteWithoutResponse issued, replying with the byte count. -/
def handleWrite (env : BleEnv) (device : Option DeviceHandle) (m : Msg) :
    HandlerResult :=
  match UpdateParamsFromJson m.params with
  | .error e =>
    { events := [.sent (.err (m.Error e))], device := device,
      outcome := .continueLoop }
  | .ok p =>
    if p.encoding ≠ "base64" then
      { events := [], device := device, outcome := .continueLoop }
    else
      match device with
      | none => { events := [], device := none, outcome := .crash nilDereference }
      | some dev =>
        match env.discoverServices dev (newUUID p.serviceId) with
        | .error e =>
          { events := [.act (.discoverServices (newUUID p.serviceId)),
                       .sent (.err (m.Error e))],
            device := device, outcome := .continueLoop }
        | .ok [] =>
          { events := [.act (.discoverServices (newUUID p.serviceId))],
            device := device, outcome := .crash indexRange }
        | .ok (svc :: _) =>
          match env.discoverCharacteristics svc (newUUID p.characteristicId) with
          | .error e =>
            { events := [.act (.discoverServices (newUUID p.serviceId)),
                         .act (.discoverCharacteristics (newUUID p.characteristicId)),
                         .sent (.err (m.Error e))],
              device := device, outcome := .continueLoop }
          | .ok [] =>
            { events := [.act (.discoverServices (newUUID p.serviceId)),
                         .act (.discoverCharacteristics (newUUID p.characteristicId))],
              device := device, outcome := .crash indexRange }
          | .ok (ch :: _) =>
            match base64Decode p.message with
            | .error e =>
              { events := [.act (.discoverServices (newUUID p.serviceId)),
                           .act (.discoverCharacteristics (newUUID p.characteristicId)),
                           .sent (.err (m.Error e))],
                device := device, outcome := .continueLoop }
            | .ok buf =>
              match env.writeWithoutResponse ch buf with
              | .error e =>
                { events := [.act (.discoverServices (newUUID p.serviceId)),
                             .act (.discoverCharacteristics (newUUID p.characteristicId)),
                             .act (.write buf), .sent (.err (m.Error e))],
                  device := device, outcome := .continueLoop }
              | .ok n =>
                { events := [.act (.discoverServices (newUUID p.serviceId)),
                             .act (.discoverCharacteristics (newUUID p.characteristicId)),
                             .act (.write buf),
                             .sent (.res (m.Respond (.num (Int.ofNat n))))],
                  device := device, outcome := .continueLoop }

/-- The read case: decode, dereference DEVICE, resolve the
characteristic; with startNotifications first register the callback
(again with params.CharacteristicId in both argument slots); then the
bounded 512-byte one-shot read, answered with RespondBytes. -/
def handleRead (env : BleEnv) (device : Option DeviceHandle) (m : Msg) :
    HandlerResult :=
  match ReadParamsFromJson m.params with
  | .error e =>
    { events := [.sent (.err (m.Error e))], device := device,
      outcome := .continueLoop }
  | .ok p =>
    match device with
    | none => { events := [], device := none, outcome := .crash nilDereference }
    | some dev =>
      match getDeviceCharacteristic env dev (newUUID p.serviceId)
          (newUUID p.characteristicId) with
      | (.fault e, evts) =>
        { events := evts ++ [.sent (.err (m.Error e))], device := device,
          outcome := .continueLoop }
      | (.panicked r, evts) =>
        { events := evts, device := device, outcome := .crash r }
      | (.ok ch, evts) =>
        if p.startNotifications then
          match env.enableNotif ch with
          | .error e =>
            { events := evts ++
                [.act (.enableNotifications p.characteristicId p.characteristicId),
                 .sent (.err (m.Error e))],
              device := device, outcome := .continueLoop }
          | .ok _ =>
            match env.readChar ch with
            | .error e =>
              { events := evts ++
                  [.act (.enableNotifications p.characteristicId p.characteristicId),
                   .act .read, .sent (.err (m.Error e))],
                device := device, outcome := .continueLoop }
            | .ok bytes =>
              { events := evts ++
                  [.act (.enableNotifications p.characteristicId p.characteristicId),
                   .act .read, .sent (.res (m.RespondBytes (bytes.take 512)))],
                device := device, outcome := .continueLoop }
        else
          match env.readChar ch with
          | .error e =>
            { events := evts ++ [.act .read, .sent (.err (m.Error e))],
              device := device, outcome := .continueLoop }
          | .ok bytes =>
            { events := evts ++
                [.act .read, .sent (.res (m.RespondBytes (bytes.take 512)))],
              device := device, outcome := .continueLoop }

/-- The stopNotifications case: decode, dereference DEVICE, resolve the
characteristic, then EnableNotifications(nil). -/
def handleStopNotifications (env : BleEnv) (device : Option DeviceHandle)
    (m : Msg) : HandlerResult :=
  match NotificationsParamsFromJson m.params with
  | .error e =>
    { events := [.sent (.err (m.Error e))], device := device,
      outcome := .continueLoop }
  | .ok p =>
    match device with
    | none => { events := [], device := none, outcome := .crash nilDereference }
    | some dev =>
      match getDeviceCharacteristic env dev (newUUID p.serviceId)
          (newUUID p.characteristicId) with
      | (.fault e, evts) =>
        { events := evts ++ [.sent (.err (m.Error e))], device := device,
          outcome := .continueLoop }
      | (.panicked r, evts) =>
        { events := evts, device := device, outcome := .crash r }
      | (.ok ch, evts) =>
        match env.enableNotif ch with
        | .error e =>
          { events := evts ++ [.act .disableNotifications,
                               .sent (.err (m.Error e))],
            device := device, outcome := .continueLoop }
        | .ok _ =>
          { events := evts ++ [.act .disableNotifications,
                               .sent (.res (m.Respond .null))],
            device := device, outcome := .continueLoop }

/-- The default case of the switch: the unknown method is logged together
with msg.DebugParams(), which panics when the raw params do not decode as
a JSON object; no frame is ever written. -/
def handleUnknown (device : Option DeviceHandle) (m : Msg) : HandlerResult :=
  match DebugParams m.params with
  | .ok _ => { events := [], device := device, outcome := .continueLoop }
  | .error e => { events := [], device := device, outcome := .crash e }

/-- Model of one iteration of the dispatcher loop in GetHandler: the
switch over msg.Method. -/
def handleMsg (env : BleEnv) (device : Option DeviceHandle) (m : Msg) :
    HandlerResult :=
  if m.method = "getVersion" then handleGetVersion device m
  else if m.method = "discover" then handleDiscover device m
  else if m.method = "connect" then handleConnect env device m
  else if m.method = "startNotifications" then handleStartNotifications env device m
  else if m.method = "write" then handleWrite env device m
  else if m.method = "read" then handleRead env device m
  else if m.method = "stopNotifications" then handleStopNotifications env device m
  else handleUnknown device m

/-! ## Spec-side predicates (taken from the words of the specification,
for comparison against the code-side definitions) -/

/-- Spec-side reading of a single filter entry: the name is empty or
equals the advertised local name exactly, and every UUID in services is
present in the advertisement's advertised service set. -/
def matchesFilterSpec (device : ScanResult) (filter : DiscoverFilter) : Prop :=
  (filter.name = "" ∨ filter.name = device.localName) ∧
  ∀ u ∈ filter.services, u ∈ device.serviceUUIDs

instance (device : ScanResult) (filter : DiscoverFilter) :
    Decidable (matchesFilterSpec device filter) := by
  unfold matchesFilterSpec; infer_instance

/-! ## Concrete fixtures for witnesses and counterexamples -/

/-- A concrete capability provider on which every call succeeds. -/
def envDefault : BleEnv :=
  { connect := fun _ => .ok ⟨1⟩
    discoverServices := fun _ _ => .ok [⟨1⟩]
    discoverCharacteristics := fun _ _ => .ok [⟨1⟩]
    enableNotif := fun _ => .ok ()
    writeWithoutResponse := fun _ buf => .ok buf.length
    readChar := fun _ => .ok [] }

/-- startNotifications request with well-formed (empty-object) params. -/
def msgStartND : Msg := ⟨1, "2.0", "startNotifications", some (.obj [])⟩

/-- stopNotifications request with well-formed params. -/
def msgStopND : Msg := ⟨2, "2.0", "stopNotifications", some (.obj [])⟩

/-- read request with well-formed params. -/
def msgReadND : Msg := ⟨3, "2.0", "read", some (.obj [])⟩

/-- write request with well-formed params and the accepted encoding. -/
def msgWriteND : Msg := ⟨4, "2.0", "write", some (.obj [("encoding", .str "base64")])⟩

/-- The service UUID 11111111-1111-1111-1111-111111111111. -/
def uuidS : UUID := ⟨List.replicate 16 17⟩

/-- The characteristic UUID 22222222-2222-2222-2222-222222222222. -/
def uuidC : UUID := ⟨List.replicate 16 34⟩

/-- startNotifications request with distinct service and characteristic
UUIDs. -/
def msgStartSC : Msg :=
  ⟨5, "2.0", "startNotifications",
   some (.obj [("serviceId", .str "11111111-1111-1111-1111-111111111111"),
               ("characteristicId", .str "22222222-2222-2222-2222-222222222222")])⟩

/-- write request whose encoding is utf8 rather than base64. -/
def msgWriteUtf8 : Msg :=
  ⟨6, "2.0", "write", some (.obj [("encoding", .str "utf8")])⟩

/-- Request with an unknown method and decodable (empty-object) params. -/
def msgFoo : Msg := ⟨7, "2.0", "foo", some (.obj [])⟩

/-- Request with an unknown method and absent params (nil RawMessage). -/
def msgFooNil : Msg := ⟨8, "2.0", "foo", none⟩

/-- connect request for a concrete peripheral. -/
def msgConnect : Msg :=
  ⟨9, "2.0", "connect", some (.obj [("peripheralId", .str "AA:BB:CC:DD:EE:FF")])⟩

/-- An inbound frame of exactly the buffer size. -/
def oversizeFrame : RawFrame := ⟨512, none⟩

/-- A reply-shaped frame: small, decodes to a message with empty method. -/
def replyFrame : RawFrame := ⟨30, some ⟨9, "2.0", "", none⟩⟩

/-- A well-formed getVersion request frame. -/
def versionFrame : RawFrame := ⟨40, some ⟨10, "2.0", "getVersion", none⟩⟩

/-- A concrete filter asking for the name Foo and one service. -/
def fooFilter : DiscoverFilter := ⟨"Foo", "", [uuidS]⟩

/-- A concrete advertisement named Foo carrying uuidS. -/
def fooAdv : ScanResult := ⟨"AA:BB:CC:DD:EE:FF", -40, "Foo", [uuidS, uuidC]⟩

/-- A concrete advertisement with an empty local name. -/
def anonAdv : ScanResult := ⟨"11:22:33:44:55:66", -50, "", [uuidS]⟩

/-! ## Helper lemmas -/

/-- A string has length zero exactly when it is the empty string; this
bridges the Go len tests to the spec's equality with the empty string. -/
lemma string_length_zero_iff (s : String) : s.length = 0 ↔ s = "" := by
  constructor
  · intro h
    cases s with
    | mk data =>
      cases data with
      | nil => rfl
      | cons c cs => simp [String.length] at h
  · intro h
    subst h
    rfl

/-- The inner service loop of matchDevice checks exactly that every
filter service is advertised. -/
lemma hasAllServices_iff (d : ScanResult) (l : List UUID) :
    hasAllServices d l = true ↔ ∀ u ∈ l, u ∈ d.serviceUUIDs := by
  induction l with
  | nil => simp [hasAllServices]
  | cons u rest ih =>
    simp only [hasAllServices, newUUID, List.mem_cons]
    by_cases h : d.serviceUUIDs.contains u = true
    · rw [if_pos h, ih]
      have hm : u ∈ d.serviceUUIDs := List.elem_iff.mp h
      constructor
      · intro hr v hv
        rcases hv with rfl | hv
        · exact hm
        · exact hr v hv
      · intro hall v hv
        exact hall v (Or.inr hv)
    · rw [if_neg h]
      simp only [Bool.false_eq_true, false_iff, not_forall]
      refine ⟨u, Or.inl rfl, fun hm => h (List.elem_iff.mpr hm)⟩

/-- Step equation of matchDevice on a nonempty filter list. -/
lemma matchDevice_cons (d : ScanResult) (f : DiscoverFilter)
    (rest : List DiscoverFilter) :
    matchDevice d (f :: rest) =
      if f.name.length ≠ 0 ∧ f.name ≠ d.localName then false
      else if hasAllServices d f.services then matchDevice d rest
      else false := rfl

/-- One filter entry of matchDevice behaves as the spec-side single
filter predicate. -/
lemma matchDevice_cons_iff (d : ScanResult) (f : DiscoverFilter)
    (rest : List DiscoverFilter) :
    matchDevice d (f :: rest) = true ↔
      (matchesFilterSpec d f ∧ matchDevice d rest = true) := by
  rw [matchDevice_cons]
  unfold matchesFilterSpec
  by_cases h1 : f.name.length ≠ 0 ∧ f.name ≠ d.localName
  · rw [if_pos h1]
    simp only [Bool.false_eq_true, false_iff, not_and]
    rintro ⟨hname | hname, _⟩
    · exact absurd ((string_length_zero_iff f.name).mpr hname) h1.1
    · exact absurd hname h1.2
  · rw [if_neg h1]
    have hname : f.name = "" ∨ f.name = d.localName := by
      by_cases hn : f.name.length = 0
      · exact Or.inl ((string_length_zero_iff f.name).mp hn)
      · rcases not_and_or.mp h1 with hc | hc
        · exact absurd (not_not.mp hc) hn
        · exact Or.inr (not_not.mp hc)
    by_cases h2 : hasAllServices d f.services = true
    · rw [if_pos h2]
      have hserv := (hasAllServices_iff d f.services).mp h2
      exact ⟨fun hr => ⟨⟨hname, hserv⟩, hr⟩, fun hr => hr.2⟩
    · rw [if_neg h2]
      simp only [Bool.false_eq_true, false_iff, not_and]
      rintro ⟨_, hserv⟩
      exact absurd ((hasAllServices_iff d f.services).mpr hserv) h2

/-! ## Claim theorems -/

/-- C1: the spec demands that startNotifications, stopNotifications,
write and read issued in the NO_DEVICE state fail with a per-request
"not connected" error and never dereference the absent handle. The code
instead dereferences the nil DEVICE pointer: on each of the four
device-dependent requests with well-formed params and no prior connect,
the handler panics with the nil-dereference runtime error and sends no
reply frame at all. -/
theorem no_device_calls_crash :
    handleMsg envDefault none msgStartND = ⟨[], none, .crash nilDereference⟩ ∧
    handleMsg envDefault none msgStopND = ⟨[], none, .crash nilDereference⟩ ∧
    handleMsg envDefault none msgReadND = ⟨[], none, .crash nilDereference⟩ ∧
    handleMsg envDefault none msgWriteND = ⟨[], none, .crash nilDereference⟩ :=
  ⟨rfl, rfl, rfl, rfl⟩

/-- C2: the spec says the characteristicDidChange push for a subscription
created with (serviceId S, characteristicId C) carries serviceId S. The
call site passes params.CharacteristicId in both argument slots of
notificationCallback, so for the concrete request with S distinct from C
the registered subscription callback carries (C, C): the push's serviceId
field equals C, not S. The message and encoding fields are as specified. -/
theorem subscription_service_id_wrong :
    NotificationsParamsFromJson msgStartSC.params = .ok ⟨uuidS, uuidC⟩ ∧
    uuidS ≠ uuidC ∧
    (handleMsg envDefault (some ⟨1⟩) msgStartSC).events =
      [.act (.discoverServices uuidS), .act (.discoverCharacteristics uuidC),
       .act (.enableNotifications uuidC uuidC),
       .sent (.res (msgStartSC.Respond .null))] ∧
    (notificationCallback uuidC uuidC 7 [102]).params =
      ⟨uuidC, uuidC, "Zg==", "base64", false⟩ :=
  ⟨rfl, by decide, rfl, rfl⟩

/-- C3 counterexample: the claim says a write with a non-base64 encoding
gets an error reply; at the concrete utf8 write request the handler
produces no event at all, in particular no error frame. -/
theorem write_utf8_no_reply : handleMsg envDefault none msgWriteUtf8 =
    ⟨[], none, .continueLoop⟩ := rfl

/-- C3 amended: a write whose decoded encoding differs from base64 is
logged and silently dropped: no outbound frame of any kind, no device
I/O, the device state unchanged, and no fatal termination. -/
theorem write_bad_encoding_dropped (env : BleEnv) (device : Option DeviceHandle)
    (m : Msg) (p : UpdateParams) (hm : m.method = "write")
    (hp : UpdateParamsFromJson m.params = .ok p)
    (henc : p.encoding ≠ "base64") :
    handleMsg env device m = ⟨[], device, .continueLoop⟩ := by
  have hred : handleMsg env device m = handleWrite env device m := by
    unfold handleMsg
    rw [hm]
    rfl
  rw [hred]
  unfold handleWrite
  rw [hp]
  simp only [if_pos henc]

/-- C3 witness: the amended statement at the concrete utf8 write request
with a connected device. -/
theorem write_bad_encoding_dropped_witness :
    handleMsg envDefault (some ⟨1⟩) msgWriteUtf8 =
      ⟨[], some ⟨1⟩, .continueLoop⟩ :=
  write_bad_encoding_dropped envDefault (some ⟨1⟩) msgWriteUtf8
    ⟨zeroUUID, zeroUUID, "", "utf8", false⟩ rfl rfl (by decide)

/-- C4: the spec demands that an oversize inbound frame be fatal for that
one connection only. The transport loop instead executes
panic("too big") for any frame of 512 bytes or more, a process-level
abort (nothing in the repository recovers it), modelled as the panicked
outcome rather than a clean session close. -/
theorem oversize_frame_panics (rest : List RawFrame) :
    wsRead (oversizeFrame :: rest) = .panicked "too big" ∧
    wsReadLoop (oversizeFrame :: rest) = ([], .panicEnd) :=
  ⟨rfl, rfl⟩

/-- C5 counterexample: the claim says an unknown method leaves the
session processing subsequent requests; at the concrete unknown-method
request whose params are absent, DebugParams panics and the session does
not continue. -/
theorem unknown_method_nil_params_crashes :
    (handleMsg envDefault none msgFooNil).outcome =
      .crash "unexpected end of JSON input" ∧
    (handleMsg envDefault none msgFooNil).outcome ≠ .continueLoop :=
  ⟨rfl, fun h => Outcome.noConfusion h⟩

/-- C5 amended: an unknown method produces zero outbound frames (zero
events altogether); the session continues when the raw params decode as
a JSON object or null, and otherwise crashes in msg.DebugParams. -/
theorem unknown_method_silent (env : BleEnv) (device : Option DeviceHandle)
    (m : Msg)
    (h1 : m.method ≠ "getVersion") (h2 : m.method ≠ "discover")
    (h3 : m.method ≠ "connect") (h4 : m.method ≠ "startNotifications")
    (h5 : m.method ≠ "write") (h6 : m.method ≠ "read")
    (h7 : m.method ≠ "stopNotifications") :
    (handleMsg env device m).events = [] ∧
    (handleMsg env device m).outcome =
      (match DebugParams m.params with
       | .ok _ => .continueLoop
       | .error e => .crash e) := by
  have hred : handleMsg env device m = handleUnknown device m := by
    unfold handleMsg
    rw [if_neg h1, if_neg h2, if_neg h3, if_neg h4, if_neg h5, if_neg h6,
        if_neg h7]
  rw [hred]
  unfold handleUnknown
  cases DebugParams m.params with
  | ok v => exact ⟨rfl, rfl⟩
  | error e => exact ⟨rfl, rfl⟩

/-- C5 witness: the amended statement at the concrete unknown-method
request foo with decodable params. -/
theorem unknown_method_silent_witness :
    (handleMsg envDefault none msgFoo).events = [] ∧
    (handleMsg envDefault none msgFoo).outcome = .continueLoop := by
  have h := unknown_method_silent envDefault none msgFoo (by decide) (by decide)
    (by decide) (by decide) (by decide) (by decide) (by decide)
  exact ⟨h.1, h.2⟩

/-- C6: an advertisement with an empty local name is dropped by the scan
callback before any filter evaluation, for every filter list; and for a
single filter entry, the advertisement is emitted exactly when the
filter name is empty or equals the local name and every filter service
is advertised. -/
theorem scan_filter_single (f : DiscoverFilter) (adv : ScanResult) :
    (adv.localName = "" → ∀ filters, scanEmit filters adv = none) ∧
    (adv.localName ≠ "" →
      ((scanEmit [f] adv).isSome = true ↔
        ((f.name = "" ∨ f.name = adv.localName) ∧
         ∀ u ∈ f.services, u ∈ adv.serviceUUIDs))) := by
  constructor
  · intro h filters
    unfold scanEmit
    rw [if_pos ((string_length_zero_iff adv.localName).mpr h)]
  · intro h
    unfold scanEmit
    rw [if_neg (fun hl => h ((string_length_zero_iff adv.localName).mp hl))]
    have hiff := matchDevice_cons_iff adv f []
    by_cases hm : matchDevice adv [f] = true
    · rw [if_pos hm]
      simp only [Option.isSome_some, true_iff]
      exact ((hiff.mp hm).1 : matchesFilterSpec adv f)
    · rw [if_neg hm]
      simp only [Option.isSome_none, Bool.false_eq_true, false_iff]
      intro hspec
      exact hm (hiff.mpr ⟨hspec, rfl⟩)

/-- C6 witness: the empty-name discard at a concrete anonymous
advertisement, and the single-filter equivalence at a concrete named
advertisement. -/
theorem scan_filter_single_witness :
    scanEmit [fooFilter] anonAdv = none ∧
    ((scanEmit [fooFilter] fooAdv).isSome = true ↔
      ((fooFilter.name = "" ∨ fooFilter.name = fooAdv.localName) ∧
       ∀ u ∈ fooFilter.services, u ∈ fooAdv.serviceUUIDs)) :=
  ⟨(scan_filter_single fooFilter anonAdv).1 rfl [fooFilter],
   (scan_filter_single fooFilter fooAdv).2 (by decide)⟩

/-- C7: every reply constructor copies the id of the triggering request,
and RespondBytes additionally sets the base64 encoding marker and the
base64 text of the buffer as the result. -/
theorem reply_ids_match (m : Msg) (v : Json) (buf : List Nat) (e : String) :
    (m.Respond v).id = m.id ∧
    (m.RespondBytes buf).id = m.id ∧
    (m.Error e).id = m.id ∧
    (m.RespondBytes buf).encoding = "base64" ∧
    (m.RespondBytes buf).result = .str (base64Encode buf) :=
  ⟨rfl, rfl, rfl, rfl, rfl⟩

/-- C7 witness: the reply constructors at a concrete request. -/
theorem reply_ids_match_witness :
    (msgFoo.Respond .null).id = msgFoo.id ∧
    (msgFoo.RespondBytes [102]).id = msgFoo.id ∧
    (msgFoo.Error "x").id = msgFoo.id ∧
    (msgFoo.RespondBytes [102]).encoding = "base64" ∧
    (msgFoo.RespondBytes [102]).result = .str (base64Encode [102]) :=
  reply_ids_match msgFoo .null [102] "x"

/-- C8: a decodable frame whose method is empty is silently skipped by
wsRead, leaving the read loop as if the frame had not arrived, and no
message delivered to the dispatcher ever has an empty method. -/
theorem reply_frames_discarded :
    (∀ (f : RawFrame) (m : Msg) (rest : List RawFrame),
        f.parsed = some m → m.method = "" → f.len < 512 →
        wsRead (f :: rest) = wsRead rest ∧
        wsReadLoop (f :: rest) = wsReadLoop rest) ∧
    (∀ (frames : List RawFrame) (m : Msg) (rest : List RawFrame),
        wsRead frames = .delivered m rest → m.method ≠ "") := by
  constructor
  · intro f m rest hp hm hlen
    have hnot : ¬ f.len ≥ 512 := by omega
    have hzero : m.method.length = 0 := (string_length_zero_iff m.method).mpr hm
    constructor
    · show (if f.len ≥ 512 then ReadResult.panicked "too big" else _) = _
      rw [if_neg hnot, hp]
      simp only [if_pos hzero]
    · show (if f.len ≥ 512 then ([], LoopEnd.panicEnd) else _) = _
      rw [if_neg hnot, hp]
      simp only [if_pos hzero]
  · intro frames
    induction frames with
    | nil =>
      intro m rest h
      exact ReadResult.noConfusion h
    | cons f rest' ih =>
      intro m rest h
      unfold wsRead at h
      split at h
      · exact ReadResult.noConfusion h
      · split at h
        · exact ReadResult.noConfusion h
        · split at h
          · exact ih m rest h
          · rename_i hz
            cases h
            intro hc
            exact hz ((string_length_zero_iff _).mpr hc)

/-- C8 witness: the skip equations at a concrete reply-shaped frame
followed by a request frame. -/
theorem reply_frames_discarded_witness :
    wsRead [replyFrame, versionFrame] = wsRead [versionFrame] ∧
    wsReadLoop [replyFrame, versionFrame] = wsReadLoop [versionFrame] :=
  reply_frames_discarded.1 replyFrame ⟨9, "2.0", "", none⟩ [versionFrame]
    rfl rfl (by decide)

/-- C9: on every connect request whose params decode, the dispatcher
calls StopScan first, then the adapter connect for the decoded
peripheral, and only afterwards writes the single reply frame (the
acknowledgment on success, the error reply on failure). -/
theorem connect_stops_scan_first (env : BleEnv) (device : Option DeviceHandle)
    (m : Msg) (p : ConnectParams) (hm : m.method = "connect")
    (hp : ConnectParamsFromJson m.params = .ok p) :
    (handleMsg env device m).events =
      [.act .stopScan, .act (.connect p.peripheralId),
       .sent (match env.connect p.peripheralId with
              | .ok _ => .res (m.Respond .null)
              | .error e => .err (m.Error e))] := by
  have hred : handleMsg env device m = handleConnect env device m := by
    unfold handleMsg
    rw [hm]
    rfl
  rw [hred]
  unfold handleConnect
  rw [hp]
  dsimp only
  cases hc : env.connect p.peripheralId with
  | ok h => rfl
  | error e => rfl

/-- C9 witness: the event order at the concrete connect request. -/
theorem connect_stops_scan_first_witness :
    (handleMsg envDefault none msgConnect).events =
      [.act .stopScan, .act (.connect "AA:BB:CC:DD:EE:FF"),
       .sent (.res (msgConnect.Respond .null))] :=
  connect_stops_scan_first envDefault none msgConnect ⟨"AA:BB:CC:DD:EE:FF"⟩
    rfl rfl

/-- C10: matchDevice accepts exactly when every filter entry matches
(conjunction across entries), the empty filter list accepts every
advertisement, and a scan with no filters emits exactly the
advertisements with a non-empty local name. -/
theorem match_device_all_filters (adv : ScanResult)
    (filters : List DiscoverFilter) :
    (matchDevice adv filters = true ↔ ∀ f ∈ filters, matchesFilterSpec adv f) ∧
    matchDevice adv [] = true ∧
    ((scanEmit [] adv).isSome = true ↔ adv.localName ≠ "") := by
  refine ⟨?_, rfl, ?_⟩
  · induction filters with
    | nil => simp [matchDevice]
    | cons f rest ih =>
      rw [matchDevice_cons_iff, ih, List.forall_mem_cons]
  · unfold scanEmit
    by_cases h : adv.localName.length = 0
    · rw [if_pos h]
      simp only [Option.isSome_none, Bool.false_eq_true, false_iff, not_not]
      exact (string_length_zero_iff adv.localName).mp h
    · rw [if_neg h]
      rw [if_pos (show matchDevice adv [] = true from rfl)]
      simp only [Option.isSome_some, true_iff]
      exact fun hc => h ((string_length_zero_iff adv.localName).mpr hc)

/-- C10 witness: the equivalences at a concrete advertisement and filter
list. -/
theorem match_device_all_filters_witness :
    (matchDevice fooAdv [fooFilter] = true ↔
      ∀ f ∈ [fooFilter], matchesFilterSpec fooAdv f) ∧
    ((scanEmit [] fooAdv).isSome = true ↔ fooAdv.localName ≠ "") :=
  ⟨(match_device_all_filters fooAdv [fooFilter]).1,
   (match_device_all_filters fooAdv [fooFilter]).2.2⟩

end Agent
